import Mathlib

/-
Verification of the pile_design repository: a shallow embedding of
soil.py, helical_piers.py, PileDesign/HelicalPiers.py and pin_pile.py.
Numbers are modelled as exact rationals or reals (the Python code uses
floats); Python runtime failures (NameError, AttributeError, TypeError,
ValueError, IndexError) are modelled as explicit error values, and
console warnings as returned warning lists.
-/

namespace PileDesign

/-- Python runtime failures that the source code can raise. -/
inductive PyErr : Type where
  | nameError : PyErr
  | attributeError : PyErr
  | typeError : PyErr
  | valueError : PyErr
  | indexError : PyErr
deriving DecidableEq

/-- Console warnings printed by the source, modelled as values. -/
inductive PileWarning : Type where
  | noBearing : PileWarning
  | hazardNoBearing : PileWarning
  | buckling : PileWarning
  | smallPlates : PileWarning
deriving DecidableEq

/-- The Soil class of soil.py: a singly linked chain of layers.  Fields are
in the order of Soil.__init__: gamma, phi, cohesion, layer_depth, hazard,
uscs, then the two fields initialised to None (layer_thickness and
underlying_layer).  The numeric type is a parameter so the same model
serves the exact-rational profile claims and the real-valued solvers. -/
inductive Soil (α : Type) : Type where
  | node (gamma phi cohesion layer_depth : α) (hazard : Bool)
      (uscs : Option String) (layer_thickness : Option α)
      (underlying_layer : Option (Soil α)) : Soil α

/-- Accessor for the gamma attribute. -/
def Soil.gamma {α : Type} : Soil α → α
  | .node g _ _ _ _ _ _ _ => g

/-- Accessor for the phi attribute. -/
def Soil.phi {α : Type} : Soil α → α
  | .node _ p _ _ _ _ _ _ => p

/-- Accessor for the cohesion attribute. -/
def Soil.cohesion {α : Type} : Soil α → α
  | .node _ _ c _ _ _ _ _ => c

/-- Accessor for the layer_depth attribute. -/
def Soil.layer_depth {α : Type} : Soil α → α
  | .node _ _ _ d _ _ _ _ => d

/-- Accessor for the hazard attribute. -/
def Soil.hazard {α : Type} : Soil α → Bool
  | .node _ _ _ _ hz _ _ _ => hz

/-- Accessor for the uscs attribute. -/
def Soil.uscs {α : Type} : Soil α → Option String
  | .node _ _ _ _ _ us _ _ => us

/-- Accessor for the layer_thickness attribute (None until a deeper layer
is inserted). -/
def Soil.layer_thickness {α : Type} : Soil α → Option α
  | .node _ _ _ _ _ _ th _ => th

/-- Accessor for the underlying_layer attribute. -/
def Soil.underlying_layer {α : Type} : Soil α → Option (Soil α)
  | .node _ _ _ _ _ _ _ u => u

/-- Soil.__init__ of soil.py.  It stores the explicit hazard flag and then
overrides it to True when the USCS code is "OL" or "OH" (organic soils);
layer_thickness and underlying_layer start as None. -/
def Soil.init {α : Type} (unit_weight friction_angle cohesion layer_depth : α)
    (hazard : Bool) (uscs : Option String) : Soil α :=
  .node unit_weight friction_angle cohesion layer_depth
    (if uscs = some "OL" ∨ uscs = some "OH" then true else hazard)
    uscs none none

/-- Soil.insert of soil.py.  When the new depth is strictly below the
current node it either appends a fresh tail (constructed by
`Soil(unit_weight, friction_angle, cohesion, layer_depth)`, so with the
defaults hazard=False and uscs=None: the hazard and uscs arguments of
insert are never forwarded) and records the thickness of the old tail, or
recurses into the underlying layer, again passing only the four numeric
arguments.  When the new depth is not strictly below the current node the
source has no else branch: the call silently leaves the profile
unchanged. -/
def Soil.insert {α : Type} [LinearOrderedField α] :
    Soil α → α → α → α → α → Bool → Option String → Soil α
  | .node g p c ld hz us th none, uw, fa, co, depth, _, _ =>
      if depth > ld then
        .node g p c ld hz us (some (depth - ld))
          (some (Soil.init uw fa co depth false none))
      else
        .node g p c ld hz us th none
  | .node g p c ld hz us th (some u), uw, fa, co, depth, _, _ =>
      if depth > ld then
        .node g p c ld hz us th (some (u.insert uw fa co depth false none))
      else
        .node g p c ld hz us th (some u)

/-- Top depth of the deepest (tail) layer of a profile. -/
def Soil.tailDepth {α : Type} : Soil α → α
  | .node _ _ _ ld _ _ _ none => ld
  | .node _ _ _ _ _ _ _ (some u) => u.tailDepth

/-- The depth-ordered chain invariant of the specification data model:
each layer top depth is strictly above that of the layer below it.
Every profile built from a head via insert satisfies it. -/
def Soil.ordered {α : Type} [LinearOrderedField α] : Soil α → Prop
  | .node _ _ _ _ _ _ _ none => True
  | .node _ _ _ ld _ _ _ (some u) => ld < u.layer_depth ∧ u.ordered

/-- The append clause of the insert contract, in the words of the
specification: walk to the current tail, set its thickness to the new
depth minus its own top depth, and hang the new layer (the one the
source constructs, `Soil(unit_weight, friction_angle, cohesion,
layer_depth)`) below it as the new tail. -/
def Soil.appendTail {α : Type} [LinearOrderedField α] :
    Soil α → α → α → α → α → Soil α
  | .node g p c ld hz us _ none, uw, fa, co, depth =>
      .node g p c ld hz us (some (depth - ld))
        (some (Soil.init uw fa co depth false none))
  | .node g p c ld hz us th (some u), uw, fa, co, depth =>
      .node g p c ld hz us th (some (u.appendTail uw fa co depth))

/-- Every layer of the chain, the head included, has hazard = false and
uscs = none. -/
def Soil.cleanChain {α : Type} : Soil α → Prop
  | .node _ _ _ _ hz us _ none => hz = false ∧ us = none
  | .node _ _ _ _ hz us _ (some u) => hz = false ∧ us = none ∧ u.cleanChain

/-- Every layer strictly below the head has hazard = false and
uscs = none. -/
def Soil.cleanBelow {α : Type} : Soil α → Prop
  | .node _ _ _ _ _ _ _ none => True
  | .node _ _ _ _ _ _ _ (some u) => u.cleanChain

/-- Argument tuple of one Soil.insert call. -/
structure InsertArgs : Type where
  uw : ℚ
  fa : ℚ
  co : ℚ
  depth : ℚ
  hazard : Bool
  uscs : Option String

/-- Folds a list of insert calls over a profile, in order. -/
def applyInserts (s : Soil ℚ) : List InsertArgs → Soil ℚ
  | [] => s
  | a :: rest => applyInserts (s.insert a.uw a.fa a.co a.depth a.hazard a.uscs) rest

/-!
The hazard scan `_check_hazard` (identical in helical_piers.py and
PileDesign/HelicalPiers.py).  Its body begins with
`while soil.underlying_layer is not None:`, but no name `soil` is in
scope (the parameter is `soil_profile`), so every call raises NameError
at once; the attribute it tests is also misspelled (`harzard`), and the
loop body never advances `soil`, so even under a repaired name the loop
cannot terminate.
-/

/-- Literal model of `_check_hazard`: it raises NameError on every call
because its while condition reads the undefined name `soil`. -/
def check_hazard {α : Type} (_soil_profile : Soil α) : Except PyErr Int :=
  .error .nameError

/-- Python `np.all(hazards == True)` (and `== False`) where `hazards` is a
plain list: the comparison of a list with a bool evaluates to the single
bool False, and `np.all(False)` is False, so both guards of
`_check_hazard` are false whatever the list holds. -/
def npAllListEq (_hazards : List Bool) (_b : Bool) : Bool :=
  false

/-- Selection logic of `_check_hazard` after its loop, applied to the list
of per-layer hazard flags the loop was meant to build.  Both `np.all`
guards are always false (see `npAllListEq`), so control always reaches
`len(hazards) - 1 - hazards[::-1].index(True)`, which is the index of the
deepest hazard layer itself; when no True is present, `list.index(True)`
raises ValueError. -/
def check_hazard_select (hazards : List Bool) : Except PyErr Int :=
  if npAllListEq hazards true then .ok (-1)
  else if npAllListEq hazards false then .ok 0
  else
    match hazards.reverse.findIdx? (fun b => b) with
    | some i => .ok ((hazards.length : Int) - 1 - (i : Int))
    | none => .error .valueError

/-!
The bearing-capacity depth search `_calculate_bearing_capacity`
(helical_piers.py lines 63-90; the PileDesign copy is the same logic).
Its first statement is `soil.Nq = (0.3359)*np.exp(0.1247*self.phi)`, but
neither HelicalPier nor SoilPierInteraction ever assigns an attribute
named phi, so every call raises AttributeError before any capacity is
computed.  The definitions below therefore come in two layers: a literal
model, and a model of the evident intent in which Nq is computed from
soil.phi, which exposes the further defects of the branch logic.
-/

/-- Result state written by the bearing search: the
allowable_bearing_depth and allowable_bearing_strata attributes (both
initialised to None) together with the warnings it prints. -/
structure BearingOut : Type where
  allowable_bearing_depth : Option ℝ
  allowable_bearing_strata : Option (Soil ℝ)
  warnings : List PileWarning

/-- Literal model of `_calculate_bearing_capacity`: the first statement
reads `self.phi`, an attribute no HelicalPier (or SoilPierInteraction)
instance has, so the method raises AttributeError on every input. -/
def calculate_bearing_capacity (_required_capacity : ℝ) (_soil : Soil ℝ)
    (_safety_factor : ℝ) : Except PyErr BearingOut :=
  .error .attributeError

/-- Model of `np.arange(start, stop, step)` for a positive step: the
values start + step*k for k below the ceiling of (stop - start)/step. -/
noncomputable def arange (start stop step : ℝ) : List ℝ :=
  (List.range (⌈(stop - start) / step⌉).toNat).map (fun k : ℕ => start + step * (k : ℝ))

/-- Total capacity at one grid depth, from the source:
`((plate_area*Nq*gamma)*d + plate_area*cohesion*9)/safety_factor` with
`Nq = 0.3359*exp(0.1247*phi)`.  Here Nq is computed from soil.phi, the
evident intent of the source text `self.phi` (see
`calculate_bearing_capacity`). -/
noncomputable def total_capacity (plate_area : ℝ) (soil : Soil ℝ)
    (safety_factor d : ℝ) : ℝ :=
  (plate_area * (0.3359 * Real.exp (0.1247 * soil.phi)) * soil.gamma * d
    + plate_area * soil.cohesion * 9) / safety_factor

/-- The depth search of `_calculate_bearing_capacity` with the single
repair Nq := f(soil.phi) in place of the AttributeError on `self.phi`;
everything else follows the source:
the grid is `np.arange(layer_depth, layer_thickness+layer_depth, 0.5)`
(TypeError when layer_thickness is still None); if capacity exceeds the
requirement at every grid depth the result is `depths[0]` with this
layer (IndexError on an empty grid); if it is below the requirement at
every grid depth the source calls the bare name
`_calculate_bearing_capacity(...)`, which is undefined inside the
method, hence NameError whenever an underlying layer exists, and prints
the no-bearing warning when none does; in the remaining (partial) case
the source iterates over the tuple returned by `np.where` and slices
`total_capacities[depth:]` with a whole index array, raising
TypeError. -/
noncomputable def calculate_bearing_capacity_soilphi (required_capacity plate_area : ℝ)
    (soil : Soil ℝ) (safety_factor : ℝ) : Except PyErr BearingOut :=
  match soil.layer_thickness with
  | none => .error .typeError
  | some th =>
    let depths := arange soil.layer_depth (th + soil.layer_depth) 0.5
    if ∀ d ∈ depths, total_capacity plate_area soil safety_factor d > required_capacity then
      match depths.head? with
      | some d0 => .ok ⟨some d0, some soil, []⟩
      | none => .error .indexError
    else if ∀ d ∈ depths, total_capacity plate_area soil safety_factor d < required_capacity then
      match soil.underlying_layer with
      | some _ => .error .nameError
      | none => .ok ⟨none, none, [PileWarning.noBearing]⟩
    else
      .error .typeError

/-!
Lateral capacity of a non-hazard bearing stratum.  In helical_piers.py,
`lateral_capacity` sets `ultimate_capacity = False` (the comment in the
source says it still needs to be defined) and returns
`np.tan(batter)*ultimate_capacity`, which is 0.  In
PileDesign/HelicalPiers.py, `soil_lateral_capacity` computes
`k_p = (1 + np.sin(phi)/(1 - np.sin(phi)))` - note the parenthesisation,
which is 1 + sin/(1-sin) = 1/(1-sin), not (1+sin)/(1-sin) - and then
reads the undefined name `kp` on the next line, a NameError.
-/

/-- The passive pressure coefficient exactly as parenthesised in
PileDesign/HelicalPiers.py: `1 + sin(phi)/(1 - sin(phi))`. -/
noncomputable def k_p_code (phi : ℝ) : ℝ :=
  1 + Real.sin phi / (1 - Real.sin phi)

/-- The passive pressure coefficient as the specification states it:
`(1 + sin(phi))/(1 - sin(phi))`. -/
noncomputable def k_p_spec (phi : ℝ) : ℝ :=
  (1 + Real.sin phi) / (1 - Real.sin phi)

/-- Non-hazard branch of `soil_lateral_capacity` in
PileDesign/HelicalPiers.py: after assigning `k_p` the next statement
multiplies the undefined name `kp`, so the branch raises NameError for
every stratum and batter angle. -/
def soil_lateral_capacity_stable (_soil : Soil ℝ) (_pier_diam _batter : ℝ) :
    Except PyErr ℝ :=
  .error .nameError

/-- Non-hazard branch of `lateral_capacity` in helical_piers.py:
`ultimate_capacity = False` and the returned horizontal component is
`np.tan(batter)*ultimate_capacity`, with Python treating False as 0. -/
noncomputable def lateral_capacity_stable_hp (batter : ℝ) : ℝ :=
  Real.tan batter * 0

/-!
Plate bearing area, from `_plate_area` of helical_piers.py (the inline
copy in the PileDesign HelicalPier.__init__ is the same arithmetic with
the additional typo `self.iam`).  The source area term is
`math.pi*(d/12**2)/4`: since `**` binds tighter than `/`, this is
pi*(d/144)/4, linear in the diameter, not the circle area
pi*(d/12)^2/4 of a diameter converted from inches to feet.  The warning
guard is `self.pier_diam > 5 and np.any(self.plate_config) < 12`, where
`np.any(...)` is a bool, so the comparison with 12 is True whatever the
plate diameters are.
-/

/-- Area term of the source, literally: `math.pi*(d/12**2)/4`. -/
noncomputable def circle_term_code (d : ℝ) : ℝ :=
  Real.pi * (d / 12 ^ 2) / 4

/-- Net plate bearing area as the source computes it: the sum over plates
of the source area term of the plate minus that of the shaft. -/
noncomputable def plate_area_code (pier_diam : ℝ) (config : List ℝ) : ℝ :=
  (config.map (fun p => circle_term_code p - circle_term_code pier_diam)).sum

/-- Net plate bearing area as the specification states it: plate circle
area minus shaft circle area, with diameters in inches converted to
feet. -/
noncomputable def plate_area_spec (pier_diam : ℝ) (config : List ℝ) : ℝ :=
  (config.map (fun p =>
    Real.pi * (p / 12) ^ 2 / 4 - Real.pi * (pier_diam / 12) ^ 2 / 4)).sum

/-- Python truthiness value of `np.any(config)` when it is used in an
arithmetic comparison: 1 when some entry is nonzero, else 0. -/
noncomputable def np_any_val (config : List ℝ) : ℝ :=
  if ∃ p ∈ config, p ≠ 0 then 1 else 0

/-- The warning guard of the source:
`pier_diam > 5 and np.any(plate_config) < 12`. -/
def plate_warn_code (pier_diam : ℝ) (config : List ℝ) : Prop :=
  pier_diam > 5 ∧ np_any_val config < 12

/-- The warning guard as the specification states it: some plate diameter
below 12 inches while the shaft diameter exceeds 5 inches. -/
def plate_warn_spec (pier_diam : ℝ) (config : List ℝ) : Prop :=
  pier_diam > 5 ∧ ∃ p ∈ config, p < 12

/-!
The pin-pile embedment solver of pin_pile.py.  `calculate_min_depth`
first computes, from a 5-point grid over the slide-mass thickness, the
driving resultant sum_T and its centroid depth z_bar, the lateral stress
at the base of the slide mass (sigma_L[-1], stored as sigma_L_ds) and
its gradient sigma_avg into the intact layer, then runs
`while abs(1 - F1L1/F2L2) > 0.01`, moving a trial depth min_d by fixed
0.01 steps.  The loop has no iteration bound and the module defines no
ConvergenceError.  The model below is fuel-indexed: the outcome
`diverge` means the loop was still running when the given fuel ran out,
so a proof of `diverge` for every fuel is a proof that the source loop
never terminates on that input.
-/

/-- The piecewise empirical K_q coefficient of pin_pile.py (the source
first replaces x by x + 0.1). -/
noncomputable def coeff_kq (phi x0 : ℝ) : ℝ :=
  let x := x0 + 0.1
  if phi > 47.5 then 222
  else if phi > 42.5 then -0.0298*x^2 + 3.3082*x + 18.456
  else if phi > 37.5 then -0.0305*x^2 + 1.8933*x + 11.695
  else if phi > 32.5 then -0.0263*x^2 + 1.2454*x + 7.997
  else if phi > 27.5 then -0.0215*x^2 + 0.8025*x + 5.3649
  else if phi > 22.5 then 0.001*x^3 - 0.039*x^2 + 0.6159*x + 3.7461
  else if phi > 17.5 then 0.0005*x^3 - 0.0216*x^2 + 0.3756*x + 2.4859
  else if phi > 12.5 then 0.0004*x^3 - 0.0174*x^2 + 0.2452*x + 1.6662
  else if phi > 7.5 then 0.0002*x^3 - 0.0087*x^2 + 0.1264*x + 1.0113
  else if phi > 2.5 then -0.0008*x^2 + 0.0279*x + 0.4913
  else 0

/-- The piecewise empirical K_c coefficient of pin_pile.py (the source
first replaces x by x + 0.1). -/
noncomputable def coeff_kc (phi x0 : ℝ) : ℝ :=
  let x := x0 + 0.1
  if phi > 47.5 then 759
  else if phi > 42.5 then -0.5208*x^2 + 27.815*x + 16.123
  else if phi > 37.5 then -0.38*x^2 + 15.569*x + 17.044
  else if phi > 32.5 then 0.0114*x^3 - 0.5662*x^2 + 11.083*x + 11.353
  else if phi > 27.5 then 0.014*x^3 - 0.5459*x^2 + 7.7909*x + 8.6346
  else if phi > 22.5 then 7.0512*Real.log x + 13.073
  else if phi > 17.5 then 4.4885*Real.log x + 10.248
  else if phi > 12.5 then 3.0067*Real.log x + 8.2786
  else if phi > 7.5 then 1.9716*Real.log x + 7.1678
  else if phi > 2.5 then 1.5053*Real.log x + 5.7476
  else 0.0019*x^3 - 0.073*x^2 + 0.9069*x + 4.0468

/-- The quantities `calculate_min_depth` computes before its while loop:
bearing is bearing_layer_depth with none standing for math.inf, T is
sum_T, a is sigma_avg, s is sigma_L[-1] (sigma_L_ds), and ld is
intact_soil.layer_depth (also the initial trial depth min_d). -/
structure PinParams : Type where
  bearing : Option ℝ
  T : ℝ
  z_bar : ℝ
  a : ℝ
  s : ℝ
  ld : ℝ

/-- The trial depth d1 of the loop body, from the source:
`(-((s*2)/a) + sqrt(((s*2)/a)**2 - 4*(-(T + (a/2)*m**2 + s*m)/a)))/2`. -/
noncomputable def d1calc (P : PinParams) (m : ℝ) : ℝ :=
  (-(P.s * 2 / P.a)
    + Real.sqrt ((P.s * 2 / P.a) ^ 2
        - 4 * (-((P.T + (P.a / 2) * m ^ 2 + P.s * m) / P.a)))) / 2

/-- The moment contribution F1L1 of the source, as a function of the
current trial depth m (the source writes intact_soil.layer_depth -
self.z_bar for the common lever term). -/
noncomputable def F1calc (P : PinParams) (m : ℝ) : ℝ :=
  P.s * d1calc P m * ((P.ld - P.z_bar) + d1calc P m / 2)
    + (P.a / 2) * (d1calc P m) ^ 2 * ((P.ld - P.z_bar) + 2 * (d1calc P m / 3))

/-- The moment contribution F2L2 of the source, as a function of the
current trial depth m, with d_d1 = m - d1. -/
noncomputable def F2calc (P : PinParams) (m : ℝ) : ℝ :=
  (P.s + P.a * d1calc P m) * (m - d1calc P m)
      * ((P.ld - P.z_bar) + d1calc P m + (m - d1calc P m) / 2)
    + (P.a / 2) * (m - d1calc P m) ^ 2
      * ((P.ld - P.z_bar) + d1calc P m + 2 * (m - d1calc P m) / 3)

/-- Loop state: the current min_d together with the F1L1 and F2L2 values
most recently computed (the condition of the while loop reads the values
from the previous body execution, not values at the current min_d). -/
structure PinState : Type where
  min_d : ℝ
  F1L1 : ℝ
  F2L2 : ℝ

/-- State on entry to the loop: min_d = intact_soil.layer_depth and the
F values the source computes once before the loop at that min_d. -/
noncomputable def pinInit (P : PinParams) : PinState :=
  ⟨P.ld, F1calc P P.ld, F2calc P P.ld⟩

/-- One execution of the loop body: recompute d1, F1L1, F2L2 at the
current min_d, then move min_d down by 0.01 if F2L2 > F1L1 and up by
0.01 otherwise. -/
noncomputable def pinStep (P : PinParams) (st : PinState) : PinState :=
  ⟨if F2calc P st.min_d > F1calc P st.min_d then st.min_d - 0.01 else st.min_d + 0.01,
    F1calc P st.min_d, F2calc P st.min_d⟩

/-- The while loop `while abs(1 - F1L1/F2L2) > 0.01`, indexed by fuel;
none means the loop was still running after that many condition checks. -/
noncomputable def pinLoop (P : PinParams) : Nat → PinState → Option ℝ
  | 0, _ => none
  | n + 1, st =>
      if |1 - st.F1L1 / st.F2L2| > 0.01 then pinLoop P n (pinStep P st)
      else some st.min_d

/-- The attributes `calculate_min_depth` leaves on the PinPile object. -/
structure PinResult : Type where
  sum_T : ℝ
  z_bar : ℝ
  sigma_avg : ℝ
  sigma_L_ds : ℝ
  pile_depth : ℝ
  depth_SF : ℝ
  embedment : ℝ

/-- Outcome of a fuel-indexed run of `calculate_min_depth`. -/
inductive PinOutcome : Type where
  | diverge : PinOutcome
  | err (e : PyErr) : PinOutcome
  | ok (r : PinResult) : PinOutcome

/-- The statements after the loop: pile_depth := min_d,
depth_SF := 1.3*pile_depth, embedment := depth_SF +
intact_soil.layer_depth; then, if pile_depth exceeds
bearing_layer_depth, the source calls the bare name
`calculate_min_depth(...)`, undefined inside the method, a NameError. -/
noncomputable def pinFinish (P : PinParams) (m : ℝ) : PinOutcome :=
  let r : PinResult := ⟨P.T, P.z_bar, P.a, P.s, m, 1.3 * m, 1.3 * m + P.ld⟩
  match P.bearing with
  | some b => if m > b then .err .nameError else .ok r
  | none => .ok r

/-- Everything `calculate_min_depth` computes before its loop, from the
source in order: bearing_layer_depth (math.inf, modelled as none, when
the intact layer has no underlying layer; TypeError when it has one but
its thickness is still None); the 5-point grid
`np.linspace(0, slide_mass.layer_thickness, 5)` (TypeError when that
thickness is None); the trapezoid resultants and their moments, giving
sum_T and z_bar; sigma_L at the base of the slide mass (only the last
grid entry of the sigma_L array is ever consumed), with
`coeff_kq(slide_mass.phi, zB)` and zB = depth/width; and the boundary
values, where the source passes the arguments of coeff_kq and coeff_kc
swapped (`coeff_kq(final_zb, intact_soil.phi)`), which this model
reproduces.  This core takes the scalar attribute values; gs, ps, cs
are the slide-mass gamma, phi and cohesion, gi, phii, cii, ld those of
the intact layer. -/
noncomputable def pinCore (gs ps cs H gi phii cii ld width : ℝ)
    (bearing : Option ℝ) : PinParams :=
  let depth1 := H / 4
  let depth2 := H / 2
  let depth3 := 3 * H / 4
  let depth4 := H
  let sV : ℝ → ℝ := fun d => gs * d
  let r1 := (depth1 + 0) * (sV depth1 + 0) / 2
  let r2 := (depth2 + depth1) * (sV depth2 + sV depth1) / 2
  let r3 := (depth3 + depth2) * (sV depth3 + sV depth2) / 2
  let r4 := (depth4 + depth3) * (sV depth4 + sV depth3) / 2
  let z1 := (depth1 + 0) / 2
  let z2 := (depth2 + depth1) / 2
  let z3 := (depth3 + depth2) / 2
  let z4 := (depth4 + depth3) / 2
  let sum_T := r1 + r2 + r3 + r4
  let sum_fz := r1 * z1 + r2 * z2 + r3 * z3 + r4 * z4
  let z_bar := sum_fz / sum_T
  let sigma_L_last := coeff_kc ps (depth4 / width) * cs
    + sV depth4 * coeff_kq ps (depth4 / width)
  let final_depth := ld * width
  let final_zb := ld
  let final_sigma_V := gi * (final_depth - ld) + gs * ld
  let final_sigma_L := final_sigma_V * coeff_kq final_zb phii
    + coeff_kc final_zb phii * cii
  let sigma_avg := (final_sigma_L - sigma_L_last) / (final_depth - ld)
  ⟨bearing, sum_T, z_bar, sigma_avg, sigma_L_last, ld⟩

/-- Field extraction in front of pinCore: the source reads
bearing_layer_depth first (TypeError when the intact layer has an
underlying layer but a None thickness; math.inf, modelled none, when it
has no underlying layer) and then the slide-mass thickness (TypeError
when None). -/
noncomputable def pinPre (slide intact : Soil ℝ) (width : ℝ) :
    Except PyErr PinParams :=
  match intact.underlying_layer with
  | some _ =>
    match intact.layer_thickness with
    | none => .error .typeError
    | some bth =>
      match slide.layer_thickness with
      | none => .error .typeError
      | some H =>
        .ok (pinCore slide.gamma slide.phi slide.cohesion H intact.gamma
          intact.phi intact.cohesion intact.layer_depth width
          (some (bth + intact.layer_depth)))
  | none =>
    match slide.layer_thickness with
    | none => .error .typeError
    | some H =>
      .ok (pinCore slide.gamma slide.phi slide.cohesion H intact.gamma
        intact.phi intact.cohesion intact.layer_depth width none)

/-- Fuel-indexed model of PinPile.calculate_min_depth: the preamble, the
while loop, and the post-loop assignments. -/
noncomputable def calculate_min_depth (slide intact : Soil ℝ) (width : ℝ)
    (fuel : Nat) : PinOutcome :=
  match pinPre slide intact width with
  | .error e => .err e
  | .ok P =>
    match pinLoop P fuel (pinInit P) with
    | none => .diverge
    | some m => pinFinish P m

/-!
Concrete inputs used to settle the claims.  For the bearing search the
soils have phi = 0 (so Nq = 0.3359 exactly) and the capacities are
rational.  For the pin-pile solver the slide mass has phi = 0 and zero
cohesion, so sigma_L vanishes identically and the only irrational step,
the square root in d1, is taken of a quantity chosen to be a perfect
square of a rational at the trial depths the loop visits.
-/

/-- One-layer stratum, top at 2 ft, 0.5 ft thick, gamma 100, phi 0. -/
noncomputable def soilA : Soil ℝ :=
  .node 100 0 0 2 false none (some (1/2)) none

/-- As soilA but with an underlying layer, so the below-requirement
branch of the bearing search reaches its broken recursive call. -/
noncomputable def soilB : Soil ℝ :=
  .node 100 0 0 2 false none (some (1/2))
    (some (.node 100 0 0 (5/2) false none none none))

/-- One-layer stratum from the surface, 1 ft thick, whose capacity curve
crosses the requirement between the two grid depths 0 and 0.5. -/
noncomputable def soilC : Soil ℝ :=
  .node 100 0 0 0 false none (some 1) none

/-- Value of coeff_kc at the swapped-argument call site of
calculate_min_depth for the intact layers below: phi slot 0.63 or 0.25
falls in the lowest band and x = 0 + 0.1, giving exactly
41367619/10000000. -/
noncomputable def kcLow : ℝ := 41367619 / 10000000

/-- Driving resultant sum_T of the slide mass sm4:
21 * 120 * (21/62)^2 / 8. -/
noncomputable def T4 : ℝ := 138915 / 3844

/-- Target ratio sum_T / sigma_avg of the divergent scenario, chosen so
that 4*c + 2*m^2 is a rational square at both trial depths 1/4 and
13/50: c = (83677/420000)^2 - 1/32. -/
noncomputable def c4ratio : ℝ := 1489340329 / 176400000000

/-- Cohesion of the intact layer i4, solved so that the preamble of
calculate_min_depth produces sigma_avg = T4 / c4ratio. -/
noncomputable def ci4 : ℝ := T4 * (1/4) / (kcLow * c4ratio)

/-- The sigma_avg value of the divergent scenario. -/
noncomputable def aV4 : ℝ := T4 / c4ratio

/-- Slide mass of the divergent scenario: gamma 120 pcf, phi 0, zero
cohesion, thickness 21/62 ft (set as if by a profile insert). -/
noncomputable def sm4 : Soil ℝ :=
  .node 120 0 0 0 false none (some (21/62)) none

/-- Intact layer of the divergent scenario: top depth 1/4 ft, phi 0,
cohesion ci4, no deeper layer. -/
noncomputable def i4 : Soil ℝ :=
  .node 110 0 ci4 (1/4) false none none none

/-- Loop parameters the preamble computes from sm4, i4 and width 2. -/
noncomputable def P4 : PinParams :=
  ⟨none, T4, 1/4, aV4, 0, 1/4⟩

/-- Driving resultant sum_T of the slide mass sm8:
21 * 120 * (1323/1550)^2 / 8. -/
noncomputable def T8 : ℝ := 315 * (1323/1550) ^ 2

/-- Target ratio sum_T / sigma_avg of the converging scenario:
4*c + 2*(63/100)^2 = 1 exactly. -/
noncomputable def c8ratio : ℝ := 1031 / 20000

/-- Cohesion of the intact layer i8, solved so that the preamble
produces sigma_avg = T8 / c8ratio. -/
noncomputable def ci8 : ℝ := T8 * (63/100) / (kcLow * c8ratio)

/-- The sigma_avg value of the converging scenario. -/
noncomputable def aV8 : ℝ := T8 / c8ratio

/-- Slide mass of the converging scenario: gamma 120 pcf, phi 0, zero
cohesion, thickness 1323/1550 ft. -/
noncomputable def sm8 : Soil ℝ :=
  .node 120 0 0 0 false none (some (1323/1550)) none

/-- Intact layer of the converging scenario: top depth 63/100 ft, phi 0,
cohesion ci8, no deeper layer. -/
noncomputable def i8 : Soil ℝ :=
  .node 110 0 ci8 (63/100) false none none none

/-- Loop parameters the preamble computes from sm8, i8 and width 2. -/
noncomputable def P8 : PinParams :=
  ⟨none, T8, 63/100, aV8, 0, 63/100⟩

/-- The result record calculate_min_depth produces on sm8, i8 with any
fuel of at least 1: the loop condition fails immediately, so pile_depth
is the initial min_d 63/100. -/
noncomputable def r8 : PinResult :=
  ⟨T8, 63/100, aV8, 0, 63/100, 1.3 * (63/100), 1.3 * (63/100) + 63/100⟩

/-!
Theorems.  Each claim of the specification gets exactly one main
theorem; supporting lemmas are shared helpers.
-/

/-- C1.  The hazard scan is broken: literally, `_check_hazard` raises
NameError on every profile (its loop reads the undefined name `soil`);
and even its post-loop selection logic, applied to the hazard list the
loop was meant to build, contradicts every behaviour the claim states:
on [hazard, clear] it selects index 0 (the hazard layer), where the
claim requires layer 1; on a hazard-free list it raises ValueError
instead of returning 0 (both `np.all` guards compare a list with a bool
and are always false); and on an all-hazard list it returns the index of
the deepest layer instead of the -1 sentinel. -/
theorem c1_check_hazard_broken :
    check_hazard (Soil.init (100:ℚ) 0 0 0 true (some "OL")) = .error .nameError ∧
    check_hazard_select [true, false] = .ok 0 ∧
    check_hazard_select [false, false] = .error .valueError ∧
    check_hazard_select [true, true] = .ok 1 :=
  ⟨rfl, rfl, rfl, rfl⟩

/-- C5 counterexample.  Inserting at a depth equal to the tail depth of
the profile is not an OrderingError failure: the source has no else
branch, the call returns normally and leaves the profile unchanged. -/
theorem c5_insert_shallow_is_silent_noop :
    Soil.insert (Soil.init (1:ℚ) 2 3 5 false none) 7 8 9 5 false none
      = Soil.init (1:ℚ) 2 3 5 false none :=
  rfl

/-- When the given depth is at most the tail top depth, some guard along
the chain fails (at the tail at the latest) and insert returns the
profile unchanged, with no well-formedness assumption needed. -/
theorem insert_noop_of_le_tailDepth : ∀ (s : Soil ℚ) (uw fa co depth : ℚ) (hz : Bool)
    (us : Option String), depth ≤ s.tailDepth → s.insert uw fa co depth hz us = s
  | .node g p c ld hz0 us0 th none, uw, fa, co, depth, hz, us, h => by
      have hld : Soil.tailDepth (Soil.node g p c ld hz0 us0 th none) = ld := rfl
      rw [hld] at h
      unfold Soil.insert
      rw [if_neg (not_lt.mpr h)]
  | .node g p c ld hz0 us0 th (some u), uw, fa, co, depth, hz, us, h => by
      have hld : Soil.tailDepth (Soil.node g p c ld hz0 us0 th (some u))
        = u.tailDepth := rfl
      rw [hld] at h
      unfold Soil.insert
      by_cases hc : depth > ld
      · rw [if_pos hc, insert_noop_of_le_tailDepth u uw fa co depth false none h]
      · rw [if_neg hc]

/-- On a depth-ordered chain, the head top depth is at most the tail top
depth. -/
theorem ordered_layer_depth_le_tailDepth : ∀ (s : Soil ℚ), s.ordered →
    s.layer_depth ≤ s.tailDepth
  | .node g p c ld hz us th none, _ => le_refl ld
  | .node g p c ld hz us th (some u), hord => by
      have h : Soil.ordered (Soil.node g p c ld hz us th (some u))
        = (ld < u.layer_depth ∧ u.ordered) := rfl
      rw [h] at hord
      have h2 : Soil.tailDepth (Soil.node g p c ld hz us th (some u))
        = u.tailDepth := rfl
      have h3 : Soil.layer_depth (Soil.node g p c ld hz us th (some u)) = ld := rfl
      rw [h2, h3]
      exact le_trans (le_of_lt hord.1) (ordered_layer_depth_le_tailDepth u hord.2)

/-- When the given depth is strictly below the tail top depth of a
depth-ordered profile, every guard along the chain passes, so insert
walks to the tail, records its thickness as depth minus its top depth,
and appends the new layer below it, exactly appendTail. -/
theorem insert_appends_of_ordered_gt : ∀ (s : Soil ℚ) (uw fa co depth : ℚ) (hz : Bool)
    (us : Option String), s.ordered → depth > s.tailDepth →
    s.insert uw fa co depth hz us = s.appendTail uw fa co depth
  | .node g p c ld hz0 us0 th none, uw, fa, co, depth, hz, us, _, hgt => by
      have hld : Soil.tailDepth (Soil.node g p c ld hz0 us0 th none) = ld := rfl
      rw [hld] at hgt
      unfold Soil.insert Soil.appendTail
      rw [if_pos hgt]
  | .node g p c ld hz0 us0 th (some u), uw, fa, co, depth, hz, us, hord, hgt => by
      have hld : Soil.tailDepth (Soil.node g p c ld hz0 us0 th (some u))
        = u.tailDepth := rfl
      rw [hld] at hgt
      have h : Soil.ordered (Soil.node g p c ld hz0 us0 th (some u))
        = (ld < u.layer_depth ∧ u.ordered) := rfl
      rw [h] at hord
      have hle : u.layer_depth ≤ u.tailDepth :=
        ordered_layer_depth_le_tailDepth u hord.2
      have hgtld : depth > ld := lt_trans (lt_of_lt_of_le hord.1 hle) hgt
      unfold Soil.insert Soil.appendTail
      rw [if_pos hgtld,
        insert_appends_of_ordered_gt u uw fa co depth false none hord.2 hgt]

/-- C5 amended.  For every profile and every call to insert: if the
given depth is at most the current tail top depth, insert silently
leaves the profile unchanged (the source raises no OrderingError and
has no else branch); otherwise, on a depth-ordered profile (the chain
invariant of the data model, which every insert-built profile
satisfies), the new layer is appended as the new tail and the previous
tail thickness is set to the new depth minus the previous tail top
depth. -/
theorem c5_insert_ordering_contract (s : Soil ℚ) (uw fa co depth : ℚ) (hz : Bool)
    (us : Option String) :
    (depth ≤ s.tailDepth → s.insert uw fa co depth hz us = s) ∧
    (s.ordered → depth > s.tailDepth →
      s.insert uw fa co depth hz us = s.appendTail uw fa co depth) :=
  ⟨insert_noop_of_le_tailDepth s uw fa co depth hz us,
    fun hord hgt => insert_appends_of_ordered_gt s uw fa co depth hz us hord hgt⟩

/-- C5 witness: a concrete insert below the tail depth returns the
profile unchanged, and a concrete insert past the tail of a two-layer
ordered profile appends the new tail and sets the old tail thickness to
7 - 5 = 2. -/
theorem c5_insert_ordering_contract_witness :
    ((3:ℚ) ≤ (Soil.init (1:ℚ) 2 3 5 false none).tailDepth ∧
      Soil.insert (Soil.init (1:ℚ) 2 3 5 false none) 7 8 9 3 true (some "OL")
        = Soil.init (1:ℚ) 2 3 5 false none) ∧
    ((Soil.node (1:ℚ) 2 3 0 false none (some 5)
        (some (.node 4 5 6 5 false none none none))).ordered ∧
      (7:ℚ) > (Soil.node (1:ℚ) 2 3 0 false none (some 5)
        (some (.node 4 5 6 5 false none none none))).tailDepth ∧
      Soil.insert (Soil.node (1:ℚ) 2 3 0 false none (some 5)
          (some (.node 4 5 6 5 false none none none))) 10 11 12 7 false none
        = (Soil.node (1:ℚ) 2 3 0 false none (some 5)
            (some (.node 4 5 6 5 false none none none))).appendTail 10 11 12 7) := by
  constructor
  · have h : (3:ℚ) ≤ (Soil.init (1:ℚ) 2 3 5 false none).tailDepth := by
      norm_num [Soil.init, Soil.tailDepth]
    exact ⟨h, (c5_insert_ordering_contract _ 7 8 9 3 true (some "OL")).1 h⟩
  · have hord : (Soil.node (1:ℚ) 2 3 0 false none (some 5)
        (some (.node 4 5 6 5 false none none none))).ordered :=
      ⟨by show (0:ℚ) < 5; norm_num, trivial⟩
    have hgt : (7:ℚ) > (Soil.node (1:ℚ) 2 3 0 false none (some 5)
        (some (.node 4 5 6 5 false none none none))).tailDepth := by
      show (7:ℚ) > 5
      norm_num
    exact ⟨hord, hgt, (c5_insert_ordering_contract _ 10 11 12 7 false none).2 hord hgt⟩

/-- C6.  The hazard attribute of a constructed layer equals the explicit
flag OR the organic-classification test: USCS "OL" or "OH" forces
hazard = true even when the flag passed is false. -/
theorem c6_hazard_flag_or_organic (uw fa co ld : ℚ) (hz : Bool) (us : Option String) :
    (Soil.init uw fa co ld hz us).hazard
      = (hz || decide (us = some "OL" ∨ us = some "OH")) := by
  unfold Soil.init Soil.hazard
  by_cases h : us = some "OL" ∨ us = some "OH"
  · simp [h]
  · simp [h]

/-- Inserting with the hazard and uscs arguments the source actually
forwards (False and None) preserves cleanliness of a whole chain. -/
theorem cleanChain_insert : ∀ (u : Soil ℚ) (uw fa co depth : ℚ),
    u.cleanChain → (u.insert uw fa co depth false none).cleanChain
  | .node g p c ld hz0 us0 th none, uw, fa, co, depth, h => by
      have hcc : Soil.cleanChain (Soil.node g p c ld hz0 us0 th none)
        = (hz0 = false ∧ us0 = none) := rfl
      rw [hcc] at h
      unfold Soil.insert
      by_cases hc : depth > ld
      · rw [if_pos hc]
        exact ⟨h.1, h.2, by simp [Soil.init, Soil.cleanChain]⟩
      · rw [if_neg hc]
        exact h
  | .node g p c ld hz0 us0 th (some u), uw, fa, co, depth, h => by
      have hcc : Soil.cleanChain (Soil.node g p c ld hz0 us0 th (some u))
        = (hz0 = false ∧ us0 = none ∧ u.cleanChain) := rfl
      rw [hcc] at h
      unfold Soil.insert
      by_cases hc : depth > ld
      · rw [if_pos hc]
        exact ⟨h.1, h.2.1, cleanChain_insert u uw fa co depth h.2.2⟩
      · rw [if_neg hc]
        exact h

/-- Insert (with any top-level hazard and uscs arguments) preserves the
property that every layer below the head is clean. -/
theorem cleanBelow_insert (s : Soil ℚ) (uw fa co depth : ℚ) (hz : Bool)
    (us : Option String) (h : s.cleanBelow) :
    (s.insert uw fa co depth hz us).cleanBelow := by
  match s with
  | .node g p c ld hz0 us0 th none =>
      unfold Soil.insert
      by_cases hc : depth > ld
      · rw [if_pos hc]
        exact by simp [Soil.init, Soil.cleanBelow, Soil.cleanChain]
      · rw [if_neg hc]
        exact h
  | .node g p c ld hz0 us0 th (some u) =>
      have hcb : Soil.cleanBelow (Soil.node g p c ld hz0 us0 th (some u))
        = u.cleanChain := rfl
      rw [hcb] at h
      unfold Soil.insert
      by_cases hc : depth > ld
      · rw [if_pos hc]
        exact cleanChain_insert u uw fa co depth h
      · rw [if_neg hc]
        exact h

/-- A sequence of inserts preserves clean-below. -/
theorem cleanBelow_applyInserts : ∀ (ops : List InsertArgs) (s : Soil ℚ),
    s.cleanBelow → (applyInserts s ops).cleanBelow
  | [], _, h => h
  | a :: rest, s, h =>
      cleanBelow_applyInserts rest _ (cleanBelow_insert s a.uw a.fa a.co a.depth a.hazard a.uscs h)

/-- C10.  In a profile built from a constructed head layer solely via
insert, every layer below the head has hazard = false and uscs = none,
whatever hazard and uscs arguments the insert calls were given: the
source never forwards them. -/
theorem c10_insert_never_forwards_hazard (g p c d : ℚ) (hz : Bool)
    (us : Option String) (ops : List InsertArgs) :
    (applyInserts (Soil.init g p c d hz us) ops).cleanBelow :=
  cleanBelow_applyInserts ops _ (by simp [Soil.init, Soil.cleanBelow])

/-- C7.  The lateral-capacity formula of the claim is in neither source:
the PileDesign draft parenthesises the passive coefficient as
1 + sin/(1 - sin), which at phi = pi/6 gives 2 where the claimed
(1 + sin)/(1 - sin) gives 3, and its next statement raises NameError on
the undefined name `kp`; the helical_piers.py draft sets the ultimate
capacity to False, so its horizontal component is identically 0. -/
theorem c7_lateral_capacity_broken :
    k_p_code (Real.pi / 6) = 2 ∧ k_p_spec (Real.pi / 6) = 3 ∧
    (∀ b : ℝ, lateral_capacity_stable_hp b = 0) ∧
    (∀ (s : Soil ℝ) (pd b : ℝ), soil_lateral_capacity_stable s pd b = .error .nameError) := by
  refine ⟨?_, ?_, fun b => mul_zero _, fun _ _ _ => rfl⟩
  · unfold k_p_code
    rw [Real.sin_pi_div_six]
    norm_num
  · unfold k_p_spec
    rw [Real.sin_pi_div_six]
    norm_num

/-- C9.  The plate-area code diverges from the claim on the concrete
configuration shaft 6 in, single 14-in plate: the source warning guard
fires although no plate is below 12 inches (because
`np.any(plate_config) < 12` compares a bool with 12), and the computed
net area differs from the claimed converted-diameter area (the source
term `pi*(d/12**2)/4` is linear in d).  The parts of the claim that do
hold even of the broken formula: the net area of this valid
configuration is non-negative, and the empty plate list gives zero. -/
theorem c9_plate_area_broken :
    plate_warn_code 6 [14] ∧ ¬ plate_warn_spec 6 [14] ∧
    plate_area_code 6 [14] ≠ plate_area_spec 6 [14] ∧
    0 ≤ plate_area_code 6 [14] ∧
    (∀ pd : ℝ, plate_area_code pd [] = 0) := by
  have hcode : plate_area_code 6 [14] = Real.pi * (1/72) := by
    unfold plate_area_code circle_term_code
    simp only [List.map_cons, List.map_nil, List.sum_cons, List.sum_nil]
    ring
  have hspec : plate_area_spec 6 [14] = Real.pi * (5/18) := by
    unfold plate_area_spec
    simp only [List.map_cons, List.map_nil, List.sum_cons, List.sum_nil]
    ring
  refine ⟨⟨by norm_num, ?_⟩, ?_, ?_, ?_, fun pd => rfl⟩
  · unfold np_any_val
    split <;> norm_num
  · rintro ⟨-, p, hp, hlt⟩
    simp only [List.mem_singleton] at hp
    rw [hp] at hlt
    norm_num at hlt
  · rw [hcode, hspec]
    intro h
    have hpi := Real.pi_pos
    nlinarith
  · rw [hcode]
    have hpi := Real.pi_pos
    nlinarith

/-- Capacity curve over soilA: Nq(0) = 0.3359, so the total at depth d
is 0.3359 * 100 * d / 2. -/
theorem totalA (d : ℝ) : total_capacity 1 soilA 2 d = 16.795 * d := by
  unfold total_capacity soilA
  simp only [Soil.phi, Soil.gamma, Soil.cohesion]
  have h0 : (0.1247 : ℝ) * 0 = 0 := by ring
  rw [h0, Real.exp_zero]
  ring

/-- Capacity curve over soilB is the same as over soilA. -/
theorem totalB (d : ℝ) : total_capacity 1 soilB 2 d = 16.795 * d := by
  unfold total_capacity soilB
  simp only [Soil.phi, Soil.gamma, Soil.cohesion]
  have h0 : (0.1247 : ℝ) * 0 = 0 := by ring
  rw [h0, Real.exp_zero]
  ring

/-- Capacity curve over soilC. -/
theorem totalC (d : ℝ) : total_capacity 1 soilC 2 d = 16.795 * d := by
  unfold total_capacity soilC
  simp only [Soil.phi, Soil.gamma, Soil.cohesion]
  have h0 : (0.1247 : ℝ) * 0 = 0 := by ring
  rw [h0, Real.exp_zero]
  ring

/-- The grid of soilA (top 2, thickness 0.5) is the single depth 2. -/
theorem arangeA : arange 2 (1/2 + 2) 0.5 = [2] := by
  unfold arange
  have h1 : (((1:ℝ)/2 + 2) - 2) / 0.5 = 1 := by norm_num
  rw [h1, Int.ceil_one]
  have h3 : List.range (Int.toNat 1) = [0] := rfl
  rw [h3]
  simp only [List.map_cons, List.map_nil]
  norm_num

/-- The grid of soilC (top 0, thickness 1) is the pair 0, 1/2. -/
theorem arangeC : arange 0 (1 + 0) 0.5 = [0, 1/2] := by
  unfold arange
  have h1 : (((1:ℝ) + 0) - 0) / 0.5 = 2 := by norm_num
  rw [h1]
  have h2 : ⌈(2:ℝ)⌉ = 2 := by norm_num
  rw [h2]
  have h3 : List.range (Int.toNat 2) = [0, 1] := rfl
  rw [h3]
  simp only [List.map_cons, List.map_nil]
  norm_num

/-- C2.  The literal bearing search raises AttributeError on every input
(no HelicalPier has a phi attribute); with that one name repaired to
soil.phi, the all-exceed branch does return the shallowest grid depth
with the current layer (first conjunct after the literal one), but the
below-requirement branch raises NameError on its unqualified recursive
call instead of recursing into the underlying layer, and only reaches
the claimed no-achievable-depth report when no underlying layer
exists. -/
theorem c2_bearing_search_broken :
    (∀ (req sf : ℝ) (s : Soil ℝ), calculate_bearing_capacity req s sf = .error .attributeError) ∧
    calculate_bearing_capacity_soilphi 30 1 soilA 2 = .ok ⟨some 2, some soilA, []⟩ ∧
    calculate_bearing_capacity_soilphi 1000 1 soilB 2 = .error .nameError ∧
    calculate_bearing_capacity_soilphi 1000 1 soilA 2 = .ok ⟨none, none, [PileWarning.noBearing]⟩ := by
  refine ⟨fun req sf s => rfl, ?_, ?_, ?_⟩
  · show (match soilA.layer_thickness with
      | none => Except.error PyErr.typeError
      | some th =>
        let depths := arange soilA.layer_depth (th + soilA.layer_depth) 0.5
        if ∀ d ∈ depths, total_capacity 1 soilA 2 d > 30 then
          match depths.head? with
          | some d0 => Except.ok (⟨some d0, some soilA, []⟩ : BearingOut)
          | none => Except.error PyErr.indexError
        else if ∀ d ∈ depths, total_capacity 1 soilA 2 d < 30 then
          match soilA.underlying_layer with
          | some _ => Except.error PyErr.nameError
          | none => Except.ok (⟨none, none, [PileWarning.noBearing]⟩ : BearingOut)
        else Except.error PyErr.typeError)
      = Except.ok (⟨some 2, some soilA, []⟩ : BearingOut)
    have hth : soilA.layer_thickness = some (1/2) := rfl
    have hld : soilA.layer_depth = (2:ℝ) := rfl
    rw [hth]
    simp only [hld, arangeA]
    rw [if_pos ?hpos]
    case hpos =>
      intro d hd
      simp only [List.mem_singleton] at hd
      rw [hd, totalA]
      norm_num
    rfl
  · show (match soilB.layer_thickness with
      | none => Except.error PyErr.typeError
      | some th =>
        let depths := arange soilB.layer_depth (th + soilB.layer_depth) 0.5
        if ∀ d ∈ depths, total_capacity 1 soilB 2 d > 1000 then
          match depths.head? with
          | some d0 => Except.ok (⟨some d0, some soilB, []⟩ : BearingOut)
          | none => Except.error PyErr.indexError
        else if ∀ d ∈ depths, total_capacity 1 soilB 2 d < 1000 then
          match soilB.underlying_layer with
          | some _ => Except.error PyErr.nameError
          | none => Except.ok (⟨none, none, [PileWarning.noBearing]⟩ : BearingOut)
        else Except.error PyErr.typeError)
      = Except.error PyErr.nameError
    have hth : soilB.layer_thickness = some (1/2) := rfl
    have hld : soilB.layer_depth = (2:ℝ) := rfl
    rw [hth]
    simp only [hld, arangeA]
    rw [if_neg ?hneg1, if_pos ?hpos2]
    case hneg1 =>
      intro hall
      have := hall 2 (by simp)
      rw [totalB 2] at this
      norm_num at this
    case hpos2 =>
      intro d hd
      simp only [List.mem_singleton] at hd
      rw [hd, totalB 2]
      norm_num
    rfl
  · show (match soilA.layer_thickness with
      | none => Except.error PyErr.typeError
      | some th =>
        let depths := arange soilA.layer_depth (th + soilA.layer_depth) 0.5
        if ∀ d ∈ depths, total_capacity 1 soilA 2 d > 1000 then
          match depths.head? with
          | some d0 => Except.ok (⟨some d0, some soilA, []⟩ : BearingOut)
          | none => Except.error PyErr.indexError
        else if ∀ d ∈ depths, total_capacity 1 soilA 2 d < 1000 then
          match soilA.underlying_layer with
          | some _ => Except.error PyErr.nameError
          | none => Except.ok (⟨none, none, [PileWarning.noBearing]⟩ : BearingOut)
        else Except.error PyErr.typeError)
      = Except.ok (⟨none, none, [PileWarning.noBearing]⟩ : BearingOut)
    have hth : soilA.layer_thickness = some (1/2) := rfl
    have hld : soilA.layer_depth = (2:ℝ) := rfl
    rw [hth]
    simp only [hld, arangeA]
    rw [if_neg ?hneg1, if_pos ?hpos2]
    case hneg1 =>
      intro hall
      have := hall 2 (by simp)
      rw [totalA] at this
      norm_num at this
    case hpos2 =>
      intro d hd
      simp only [List.mem_singleton] at hd
      rw [hd, totalA]
      norm_num
    rfl

/-- C3.  On a layer whose capacity curve crosses the requirement inside
the grid (here below the requirement at depth 0 and above it at depth
1/2), the partial branch of the bearing search does not return any
depth: the source slices the capacity array with the whole index array
returned by np.where, a TypeError, so the claimed monotonic-tail
selection never happens. -/
theorem c3_partial_case_is_typeerror :
    total_capacity 1 soilC 2 0 < 5 ∧ 5 < total_capacity 1 soilC 2 (1/2) ∧
    calculate_bearing_capacity_soilphi 5 1 soilC 2 = .error .typeError := by
  refine ⟨by rw [totalC]; norm_num, by rw [totalC]; norm_num, ?_⟩
  show (match soilC.layer_thickness with
    | none => Except.error PyErr.typeError
    | some th =>
      let depths := arange soilC.layer_depth (th + soilC.layer_depth) 0.5
      if ∀ d ∈ depths, total_capacity 1 soilC 2 d > 5 then
        match depths.head? with
        | some d0 => Except.ok (⟨some d0, some soilC, []⟩ : BearingOut)
        | none => Except.error PyErr.indexError
      else if ∀ d ∈ depths, total_capacity 1 soilC 2 d < 5 then
        match soilC.underlying_layer with
        | some _ => Except.error PyErr.nameError
        | none => Except.ok (⟨none, none, [PileWarning.noBearing]⟩ : BearingOut)
      else Except.error PyErr.typeError)
    = Except.error PyErr.typeError
  have hth : soilC.layer_thickness = some 1 := rfl
  have hld : soilC.layer_depth = (0:ℝ) := rfl
  rw [hth]
  simp only [hld, arangeC]
  rw [if_neg ?hn1, if_neg ?hn2]
  case hn1 =>
    intro hall
    have := hall 0 (by simp)
    rw [totalC 0] at this
    norm_num at this
  case hn2 =>
    intro hall
    have := hall (1/2) (by simp)
    rw [totalC (1/2)] at this
    norm_num at this

/-- For a friction angle at most 2.5 the K_q coefficient is 0 (the last
branch of the piecewise fit). -/
theorem coeff_kq_low (phi x0 : ℝ) (h : phi ≤ 2.5) : coeff_kq phi x0 = 0 := by
  unfold coeff_kq
  rw [if_neg (by norm_num; linarith), if_neg (by norm_num; linarith),
    if_neg (by norm_num; linarith), if_neg (by norm_num; linarith),
    if_neg (by norm_num; linarith), if_neg (by norm_num; linarith),
    if_neg (by norm_num; linarith), if_neg (by norm_num; linarith),
    if_neg (by norm_num; linarith), if_neg (by norm_num; linarith)]

/-- For a friction angle at most 2.5 the K_c coefficient is the
lowest-band cubic in x + 0.1. -/
theorem coeff_kc_low (phi x0 : ℝ) (h : phi ≤ 2.5) :
    coeff_kc phi x0 = 0.0019*(x0 + 0.1)^3 - 0.073*(x0 + 0.1)^2
      + 0.9069*(x0 + 0.1) + 4.0468 := by
  unfold coeff_kc
  rw [if_neg (by norm_num; linarith), if_neg (by norm_num; linarith),
    if_neg (by norm_num; linarith), if_neg (by norm_num; linarith),
    if_neg (by norm_num; linarith), if_neg (by norm_num; linarith),
    if_neg (by norm_num; linarith), if_neg (by norm_num; linarith),
    if_neg (by norm_num; linarith), if_neg (by norm_num; linarith)]

/-- Evaluation of pinCore on the divergent-scenario attribute values:
sum_T = 138915/3844 = T4, z_bar = 1/4, sigma_avg = T4/c4ratio = aV4,
sigma_L_ds = 0 (zero slide cohesion and phi = 0), min_d0 = ld = 1/4. -/
theorem pinCore4 : pinCore 120 0 0 (21/62) 110 0 ci4 (1/4) 2 none = P4 := by
  simp only [pinCore]
  rw [coeff_kq_low 0 (21/62 / 2) (by norm_num), coeff_kq_low (1/4) 0 (by norm_num),
    coeff_kc_low (1/4) 0 (by norm_num)]
  simp only [P4, PinParams.mk.injEq]
  simp only [ci4, T4, aV4, kcLow, c4ratio]
  norm_num

/-- The preamble on sm4, i4 reduces to pinCore on their attributes. -/
theorem pinPre4 : pinPre sm4 i4 2 = .ok P4 := by
  have h : pinPre sm4 i4 2 = .ok (pinCore 120 0 0 (21/62) 110 0 ci4 (1/4) 2 none) := rfl
  rw [h, pinCore4]

/-- Evaluation of pinCore on the converging-scenario attribute values. -/
theorem pinCore8 : pinCore 120 0 0 (1323/1550) 110 0 ci8 (63/100) 2 none = P8 := by
  simp only [pinCore]
  rw [coeff_kq_low 0 (1323/1550 / 2) (by norm_num), coeff_kq_low (63/100) 0 (by norm_num),
    coeff_kc_low (63/100) 0 (by norm_num)]
  simp only [P8, PinParams.mk.injEq]
  simp only [ci8, T8, aV8, kcLow, c8ratio]
  norm_num

/-- The preamble on sm8, i8 reduces to pinCore on their attributes. -/
theorem pinPre8 : pinPre sm8 i8 2 = .ok P8 := by
  have h : pinPre sm8 i8 2 = .ok (pinCore 120 0 0 (1323/1550) 110 0 ci8 (63/100) 2 none) := rfl
  rw [h, pinCore8]

/-- In the divergent scenario, the square root in the d1 formula at
trial depth 1/4 is exact: the radicand is (2 * 83677/420000)^2. -/
theorem d1_x4 : d1calc P4 (1/4) = 83677/420000 := by
  unfold d1calc
  have hs : P4.s = 0 := rfl
  have ha : P4.a = aV4 := rfl
  have hT : P4.T = T4 := rfl
  rw [hs, ha, hT]
  have harg : ((0:ℝ) * 2 / aV4) ^ 2
      - 4 * (-((T4 + aV4 / 2 * (1/4) ^ 2 + 0 * (1/4)) / aV4))
      = (2 * (83677/420000) : ℝ) ^ 2 := by
    simp only [T4, aV4, c4ratio]
    norm_num
  rw [harg, Real.sqrt_sq (by norm_num)]
  norm_num

/-- In the divergent scenario, the square root at trial depth 13/50 is
also exact: the radicand is (2 * 86323/420000)^2. -/
theorem d1_y4 : d1calc P4 (13/50) = 86323/420000 := by
  unfold d1calc
  have hs : P4.s = 0 := rfl
  have ha : P4.a = aV4 := rfl
  have hT : P4.T = T4 := rfl
  rw [hs, ha, hT]
  have harg : ((0:ℝ) * 2 / aV4) ^ 2
      - 4 * (-((T4 + aV4 / 2 * (13/50) ^ 2 + 0 * (13/50)) / aV4))
      = (2 * (86323/420000) : ℝ) ^ 2 := by
    simp only [T4, aV4, c4ratio]
    norm_num
  rw [harg, Real.sqrt_sq (by norm_num)]
  norm_num

/-- At trial depth 1/4 the loop moves up: F2L2 does not exceed F1L1. -/
theorem F_x4_le : F2calc P4 (1/4) ≤ F1calc P4 (1/4) := by
  unfold F2calc F1calc
  rw [d1_x4]
  simp only [P4, T4, aV4, c4ratio]
  norm_num

/-- At trial depth 1/4 the loop condition holds: the moment ratio is
above 1.01. -/
theorem cond_x4 : |1 - F1calc P4 (1/4) / F2calc P4 (1/4)| > 0.01 := by
  have h : F1calc P4 (1/4) / F2calc P4 (1/4) > 1.01 := by
    unfold F2calc F1calc
    rw [d1_x4]
    simp only [P4, T4, aV4, c4ratio]
    norm_num
  rw [gt_iff_lt, lt_abs]
  right
  linarith

/-- At trial depth 13/50 the loop moves down: F2L2 exceeds F1L1. -/
theorem F_y4_gt : F2calc P4 (13/50) > F1calc P4 (13/50) := by
  unfold F2calc F1calc
  rw [d1_y4]
  simp only [P4, T4, aV4, c4ratio]
  norm_num

/-- At trial depth 13/50 the loop condition also holds: the moment ratio
is below 0.99. -/
theorem cond_y4 : |1 - F1calc P4 (13/50) / F2calc P4 (13/50)| > 0.01 := by
  have h : F1calc P4 (13/50) / F2calc P4 (13/50) < 0.99 := by
    unfold F2calc F1calc
    rw [d1_y4]
    simp only [P4, T4, aV4, c4ratio]
    norm_num
  rw [gt_iff_lt, lt_abs]
  left
  linarith

/-- A body execution at trial depth 1/4 moves to 13/50 and stores the
F values computed at 1/4. -/
theorem step_x4 (u v : ℝ) : pinStep P4 ⟨1/4, u, v⟩
    = ⟨13/50, F1calc P4 (1/4), F2calc P4 (1/4)⟩ := by
  unfold pinStep
  simp only []
  rw [if_neg (not_lt.mpr F_x4_le)]
  norm_num

/-- A body execution at trial depth 13/50 moves back to 1/4 and stores
the F values computed at 13/50. -/
theorem step_y4 (u v : ℝ) : pinStep P4 ⟨13/50, u, v⟩
    = ⟨1/4, F1calc P4 (13/50), F2calc P4 (13/50)⟩ := by
  unfold pinStep
  simp only []
  rw [if_pos F_y4_gt]
  norm_num

/-- The loop on the divergent scenario is a period-2 cycle between trial
depths 1/4 and 13/50, with the condition violated at both, so it returns
nothing for any fuel, from any of its three reachable states. -/
theorem cycle4 : ∀ n : Nat,
    pinLoop P4 n ⟨1/4, F1calc P4 (1/4), F2calc P4 (1/4)⟩ = none ∧
    pinLoop P4 n ⟨13/50, F1calc P4 (1/4), F2calc P4 (1/4)⟩ = none ∧
    pinLoop P4 n ⟨1/4, F1calc P4 (13/50), F2calc P4 (13/50)⟩ = none := by
  intro n
  induction n with
  | zero => exact ⟨rfl, rfl, rfl⟩
  | succ n ih =>
    refine ⟨?_, ?_, ?_⟩
    · simp only [pinLoop]
      rw [if_pos cond_x4, step_x4]
      exact ih.2.1
    · simp only [pinLoop]
      rw [if_pos cond_x4, step_y4]
      exact ih.2.2
    · simp only [pinLoop]
      rw [if_pos cond_y4, step_x4]
      exact ih.2.1

/-- Unfolds the solver through a successfully evaluated preamble. -/
theorem calcMinDepth_ok (slide intact : Soil ℝ) (w : ℝ) (fuel : Nat)
    (P : PinParams) (h : pinPre slide intact w = .ok P) :
    calculate_min_depth slide intact w fuel =
      (match pinLoop P fuel (pinInit P) with
        | none => PinOutcome.diverge
        | some m => pinFinish P m) := by
  unfold calculate_min_depth
  rw [h]

/-- C4.  The embedment iteration of calculate_min_depth has no iteration
bound and no ConvergenceError: on the concrete slide mass sm4 (gamma 120,
phi 0, zero cohesion, thickness 21/62) over the intact layer i4 (top
depth 1/4, phi 0, cohesion ci4) with pile width 2, the trial depth
oscillates between 1/4 and 13/50 with the 1 percent criterion violated
at both, so the while loop runs forever: no amount of fuel makes the
model terminate. -/
theorem c4_embedment_iteration_never_terminates :
    ∀ fuel : Nat, calculate_min_depth sm4 i4 2 fuel = PinOutcome.diverge := by
  intro fuel
  rw [calcMinDepth_ok sm4 i4 2 fuel P4 pinPre4]
  have hinit : pinInit P4 = ⟨1/4, F1calc P4 (1/4), F2calc P4 (1/4)⟩ := rfl
  rw [hinit, (cycle4 fuel).1]

/-- In the converging scenario, the square root at the initial trial
depth 63/100 is the square root of 1. -/
theorem d1_8 : d1calc P8 (63/100) = 1/2 := by
  unfold d1calc
  have hs : P8.s = 0 := rfl
  have ha : P8.a = aV8 := rfl
  have hT : P8.T = T8 := rfl
  rw [hs, ha, hT]
  have harg : ((0:ℝ) * 2 / aV8) ^ 2
      - 4 * (-((T8 + aV8 / 2 * (63/100) ^ 2 + 0 * (63/100)) / aV8))
      = (1 : ℝ) := by
    simp only [T8, aV8, c8ratio]
    norm_num
  rw [harg, Real.sqrt_one]
  norm_num

/-- In the converging scenario the condition fails at once: the moment
ratio at the initial trial depth is within 1 percent of unity. -/
theorem cond8 : ¬ (|1 - F1calc P8 (63/100) / F2calc P8 (63/100)| > 0.01) := by
  have h : F1calc P8 (63/100) / F2calc P8 (63/100) ≥ 0.99 ∧
      F1calc P8 (63/100) / F2calc P8 (63/100) ≤ 1.01 := by
    unfold F2calc F1calc
    rw [d1_8]
    simp only [P8, T8, aV8, c8ratio]
    norm_num
  simp only [not_lt]
  rw [abs_le]
  exact ⟨by linarith [h.2], by linarith [h.1]⟩

/-- Full evaluation of the solver on the converging scenario: the loop
exits at its first condition check and the post-loop assignments give
r8. -/
theorem run8 : calculate_min_depth sm8 i8 2 1 = PinOutcome.ok r8 := by
  rw [calcMinDepth_ok sm8 i8 2 1 P8 pinPre8]
  have hinit : pinInit P8 = ⟨63/100, F1calc P8 (63/100), F2calc P8 (63/100)⟩ := rfl
  rw [hinit]
  have h1 : (1 : Nat) = 0 + 1 := rfl
  rw [h1]
  simp only [pinLoop]
  rw [if_neg cond8]
  rfl

/-- When pinPre succeeds its output carries the intact layer top depth
in the ld field. -/
theorem pinPre_ld (slide intact : Soil ℝ) (w : ℝ) (P : PinParams)
    (h : pinPre slide intact w = .ok P) : P.ld = intact.layer_depth := by
  unfold pinPre at h
  split at h
  · split at h
    · exact absurd h (by simp)
    · split at h
      · exact absurd h (by simp)
      · injection h with h2
        rw [← h2]
        rfl
  · split at h
    · exact absurd h (by simp)
    · injection h with h2
      rw [← h2]
      rfl

/-- C8 amended.  Whenever the solver returns normally, depth_SF is
1.3 times pile_depth, and total embedment is depth_SF plus the intact
layer top depth (which equals the slide-mass thickness only when the
slide mass starts at the surface directly above the intact layer). -/
theorem c8_depth_SF_and_embedment (slide intact : Soil ℝ) (w : ℝ) (fuel : Nat)
    (r : PinResult) (h : calculate_min_depth slide intact w fuel = PinOutcome.ok r) :
    r.depth_SF = 1.3 * r.pile_depth ∧ r.embedment = r.depth_SF + intact.layer_depth := by
  unfold calculate_min_depth at h
  split at h
  · exact absurd h (by simp)
  case _ P hP =>
    split at h
    · exact absurd h (by simp)
    case _ m hm =>
      unfold pinFinish at h
      have hld := pinPre_ld slide intact w P hP
      split at h
      · split at h
        · exact absurd h (by simp)
        · rw [PinOutcome.ok.injEq] at h
          rw [← h, ← hld]
          exact ⟨rfl, rfl⟩
      · rw [PinOutcome.ok.injEq] at h
        rw [← h, ← hld]
        exact ⟨rfl, rfl⟩

/-- C8 witness: the solver converges on the concrete scenario sm8, i8
and its output satisfies the amended equations, with pile_depth 63/100,
depth_SF 1.3 * 63/100 and embedment 1.3 * 63/100 + 63/100. -/
theorem c8_depth_SF_and_embedment_witness :
    calculate_min_depth sm8 i8 2 1 = PinOutcome.ok r8 ∧
      r8.depth_SF = 1.3 * r8.pile_depth ∧
      r8.embedment = r8.depth_SF + i8.layer_depth :=
  ⟨run8, c8_depth_SF_and_embedment sm8 i8 2 1 r8 run8⟩

/-- C8 counterexample.  On the converging scenario the slide-mass
thickness is 1323/1550 while the intact layer top depth is 63/100, and
the embedment the code computes is depth_SF + 63/100, not depth_SF plus
the slide-mass thickness as the claim states. -/
theorem c8_embedment_not_slide_thickness :
    calculate_min_depth sm8 i8 2 1 = PinOutcome.ok r8 ∧
      sm8.layer_thickness = some (1323/1550) ∧
      r8.embedment ≠ r8.depth_SF + (1323/1550 : ℝ) := by
  refine ⟨run8, rfl, ?_⟩
  show (1.3 * (63/100) + 63/100 : ℝ) ≠ 1.3 * (63/100) + 1323/1550
  norm_num

end PileDesign
